import Mathlib

/-
Verification of the Lighter signer bridge
(src/src/exchanges/lighter/lighter_signer_bridge.py).

The bridge exposes a native signing library over a line-delimited JSON
protocol.  We embed the request/response handling shallowly: Python's
JSON-ish values become the inductive `PyVal`, the mutable module-level
registry (`_CLIENT_CONFIG`, `_INITIALISED_KEYS`) becomes an explicit
`BridgeState` threaded through the handlers, exceptions become
`Except String`, and the foreign ctypes library becomes an abstract
`SignerLib` together with a trace of the foreign calls a handler issues.
-/

namespace LighterBridge

/-- JSON-like Python values appearing in requests, params and responses. -/
inductive PyVal where
  | pnull
  | pbool (b : Bool)
  | pint (n : Int)
  | pstr (s : String)
  | plist (xs : List PyVal)
  | pdict (entries : List (String × PyVal))

/-- A foreign byte buffer (the contents of a non-NULL c_char_p). -/
abbrev Bytes := List Nat

/-- A Python dict used as a JSON response object. -/
abbrev Dict := List (String × PyVal)

/-- Python `key in d` on a response dict. -/
def dictHasKey (d : Dict) (k : String) : Bool :=
  (List.lookup k d).isSome

/-- Python `d.setdefault(k, v)` (ignoring the returned value). -/
def dictSetdefault (d : Dict) (k : String) (v : PyVal) : Dict :=
  if dictHasKey d k then d else d ++ [(k, v)]

/-- Python type name of a value, as it appears in exception messages. -/
def pyTypeName : PyVal → String
  | .pnull => "NoneType"
  | .pbool _ => "bool"
  | .pint _ => "int"
  | .pstr _ => "str"
  | .plist _ => "list"
  | .pdict _ => "dict"

mutual

/-- Python repr() of a value, as used inside exception messages. -/
def pyRepr : PyVal → String
  | .pnull => "None"
  | .pbool b => if b then "True" else "False"
  | .pint n => toString n
  | .pstr s => "'" ++ s ++ "'"
  | .plist xs => "[" ++ String.intercalate ", " (pyReprList xs) ++ "]"
  | .pdict es => "\x7b" ++ String.intercalate ", " (pyReprEntries es) ++ "\x7d"

/-- repr() of each element of a list. -/
def pyReprList : List PyVal → List String
  | [] => []
  | x :: xs => pyRepr x :: pyReprList xs

/-- repr() of each key/value pair of a dict. -/
def pyReprEntries : List (String × PyVal) → List String
  | [] => []
  | (k, v) :: es => ("'" ++ k ++ "': " ++ pyRepr v) :: pyReprEntries es

end

/-- Python str() of a value, as used by f-string interpolation. -/
def pyStrFmt : PyVal → String
  | .pnull => "None"
  | .pbool b => if b then "True" else "False"
  | .pint n => toString n
  | .pstr s => s
  | .plist xs => pyRepr (.plist xs)
  | .pdict es => pyRepr (.pdict es)

/-- The whitespace characters stripped by Python `str.strip()`. -/
def isPySpace (c : Char) : Bool :=
  c == ' ' || c == '\t' || c == '\n' || c == '\r' || c == '\x0b' || c == '\x0c'

/-- Accumulate the decimal value of a digit string; none on a non-digit. -/
def decDigitsValAux : List Char → Nat → Option Nat
  | [], acc => some acc
  | c :: cs, acc =>
    if c.isDigit then decDigitsValAux cs (acc * 10 + (c.toNat - '0'.toNat)) else none

/-- Decimal value of a non-empty digit string. -/
def decDigitsVal (cs : List Char) : Option Nat :=
  if cs.isEmpty then none else decDigitsValAux cs 0

/-- Models the Python builtin int() applied to a decimal string:
optional surrounding whitespace, optional sign, then digits. -/
def parseIntStr (s : String) : Option Int :=
  let cs := ((s.toList.dropWhile isPySpace).reverse.dropWhile isPySpace).reverse
  match cs with
  | '-' :: ds => (decDigitsVal ds).map (fun n => -(n : Int))
  | '+' :: ds => (decDigitsVal ds).map (fun n => (n : Int))
  | ds => (decDigitsVal ds).map (fun n => (n : Int))

/-- Models the Python builtin int() on a JSON-ish value; `.error` is a
raised exception carrying str(exc). -/
def pyInt : PyVal → Except String Int
  | .pbool b => .ok (if b then 1 else 0)
  | .pint n => .ok n
  | .pstr s =>
    match parseIntStr s with
    | some n => .ok n
    | none => .error ("invalid literal for int() with base 10: " ++ pyRepr (.pstr s))
  | v => .error ("int() argument must be a string, a bytes-like object or a real number, not '"
      ++ pyTypeName v ++ "'")

/-- Python subscript `v[k]` with a string key: KeyError on a missing dict
key, TypeError on non-dict receivers. -/
def pySubscript (v : PyVal) (k : String) : Except String PyVal :=
  match v with
  | .pdict entries =>
    match List.lookup k entries with
    | some x => .ok x
    | none => .error (pyRepr (.pstr k))
  | .plist _ => .error "list indices must be integers or slices, not str"
  | .pstr _ => .error "string indices must be integers"
  | w => .error ("'" ++ pyTypeName w ++ "' object is not subscriptable")

/-- Python `k in v` for a string key.  The handlers only reach this test
after a successful dict subscript, so non-dict receivers are unreachable
and modelled as false. -/
def pyHasKey (v : PyVal) (k : String) : Bool :=
  match v with
  | .pdict entries => (List.lookup k entries).isSome
  | _ => false

/-- Python `v.get(k, dflt)`: AttributeError on non-dict receivers. -/
def pyGetD (v : PyVal) (k : String) (dflt : PyVal) : Except String PyVal :=
  match v with
  | .pdict entries => .ok ((List.lookup k entries).getD dflt)
  | w => .error ("'" ++ pyTypeName w ++ "' object has no attribute 'get'")

/-- Python `v.encode("utf-8")`: AttributeError unless v is a string. -/
def pyEncode : PyVal → Except String String
  | .pstr s => .ok s
  | v => .error ("'" ++ pyTypeName v ++ "' object has no attribute 'encode'")

/-- ctypes.c_int: wrap to signed 32-bit two's complement (no overflow check). -/
def toCInt (n : Int) : Int := (n + 2 ^ 31) % 2 ^ 32 - 2 ^ 31

/-- ctypes.c_longlong: wrap to signed 64-bit two's complement. -/
def toCLongLong (n : Int) : Int := (n + 2 ^ 63) % 2 ^ 64 - 2 ^ 63

/-- UTF-8 continuation byte. -/
def isCont (b : Nat) : Bool := 0x80 ≤ b && b ≤ 0xBF

/-- Allowed second byte of a three-byte sequence headed by b. -/
def isCont3First (b b2 : Nat) : Bool :=
  if b == 0xE0 then 0xA0 ≤ b2 && b2 ≤ 0xBF
  else if b == 0xED then 0x80 ≤ b2 && b2 ≤ 0x9F
  else isCont b2

/-- Allowed second byte of a four-byte sequence headed by b. -/
def isCont4First (b b2 : Nat) : Bool :=
  if b == 0xF0 then 0x90 ≤ b2 && b2 ≤ 0xBF
  else if b == 0xF4 then 0x80 ≤ b2 && b2 ≤ 0x8F
  else isCont b2

/-- U+FFFD, the replacement character. -/
def replacementChar : Char := Char.ofNat 0xFFFD

/-- bytes.decode("utf-8", errors="replace"), driven by a fuel counter:
each step consumes at least one byte, so fuel = length never runs out.
Total, one replacement character per maximal ill-formed subpart. -/
def utf8ReplaceGo : Nat → List Nat → List Char
  | 0, _ => []
  | _ + 1, [] => []
  | fuel + 1, b :: rest =>
    if b < 0x80 then Char.ofNat b :: utf8ReplaceGo fuel rest
    else if 0xC2 ≤ b && b ≤ 0xDF then
      match rest with
      | [] => [replacementChar]
      | b2 :: rest2 =>
        if isCont b2 then
          Char.ofNat ((b - 0xC0) * 0x40 + (b2 - 0x80)) :: utf8ReplaceGo fuel rest2
        else replacementChar :: utf8ReplaceGo fuel rest
    else if 0xE0 ≤ b && b ≤ 0xEF then
      match rest with
      | [] => [replacementChar]
      | b2 :: rest2 =>
        if isCont3First b b2 then
          match rest2 with
          | [] => [replacementChar]
          | b3 :: rest3 =>
            if isCont b3 then
              Char.ofNat ((b - 0xE0) * 0x1000 + (b2 - 0x80) * 0x40 + (b3 - 0x80)) ::
                utf8ReplaceGo fuel rest3
            else replacementChar :: utf8ReplaceGo fuel rest2
        else replacementChar :: utf8ReplaceGo fuel rest
    else if 0xF0 ≤ b && b ≤ 0xF4 then
      match rest with
      | [] => [replacementChar]
      | b2 :: rest2 =>
        if isCont4First b b2 then
          match rest2 with
          | [] => [replacementChar]
          | b3 :: rest3 =>
            if isCont b3 then
              match rest3 with
              | [] => [replacementChar]
              | b4 :: rest4 =>
                if isCont b4 then
                  Char.ofNat ((b - 0xF0) * 0x40000 + (b2 - 0x80) * 0x1000 +
                      (b3 - 0x80) * 0x40 + (b4 - 0x80)) :: utf8ReplaceGo fuel rest4
                else replacementChar :: utf8ReplaceGo fuel rest3
            else replacementChar :: utf8ReplaceGo fuel rest2
        else replacementChar :: utf8ReplaceGo fuel rest
    else replacementChar :: utf8ReplaceGo fuel rest

/-- bytes.decode("utf-8") with the default strict error handling, same
fuel discipline: none models a raised UnicodeDecodeError. -/
def utf8StrictGo : Nat → List Nat → Option (List Char)
  | 0, _ => none
  | _ + 1, [] => some []
  | fuel + 1, b :: rest =>
    if b < 0x80 then (utf8StrictGo fuel rest).map (Char.ofNat b :: ·)
    else if 0xC2 ≤ b && b ≤ 0xDF then
      match rest with
      | [] => none
      | b2 :: rest2 =>
        if isCont b2 then
          (utf8StrictGo fuel rest2).map (Char.ofNat ((b - 0xC0) * 0x40 + (b2 - 0x80)) :: ·)
        else none
    else if 0xE0 ≤ b && b ≤ 0xEF then
      match rest with
      | [] => none
      | b2 :: rest2 =>
        if isCont3First b b2 then
          match rest2 with
          | [] => none
          | b3 :: rest3 =>
            if isCont b3 then
              (utf8StrictGo fuel rest3).map
                (Char.ofNat ((b - 0xE0) * 0x1000 + (b2 - 0x80) * 0x40 + (b3 - 0x80)) :: ·)
            else none
        else none
    else if 0xF0 ≤ b && b ≤ 0xF4 then
      match rest with
      | [] => none
      | b2 :: rest2 =>
        if isCont4First b b2 then
          match rest2 with
          | [] => none
          | b3 :: rest3 =>
            if isCont b3 then
              match rest3 with
              | [] => none
              | b4 :: rest4 =>
                if isCont b4 then
                  (utf8StrictGo fuel rest4).map
                    (Char.ofNat ((b - 0xF0) * 0x40000 + (b2 - 0x80) * 0x1000 +
                        (b3 - 0x80) * 0x40 + (b4 - 0x80)) :: ·)
                else none
            else none
        else none
    else none

/-- Total decode used throughout the bridge (errors="replace"). -/
def utf8DecodeReplace (bs : Bytes) : String :=
  String.mk (utf8ReplaceGo bs.length bs)

/-- Strict decode (what bytes.decode would do without errors="replace"). -/
def utf8DecodeStrict (bs : Bytes) : Option String :=
  (utf8StrictGo bs.length bs).map String.mk

/-- ctypes StrOrErr: each c_char_p field is either NULL or a byte buffer. -/
structure StrOrErr where
  str : Option Bytes
  err : Option Bytes

/-- ctypes SignedTxResponse. -/
structure SignedTxResponse where
  txType : Nat
  txInfo : Option Bytes
  txHash : Option Bytes
  messageToSign : Option Bytes
  err : Option Bytes

/-- The two foreign result shapes _unwrap distinguishes via isinstance. -/
inductive ForeignResult where
  | simple (r : StrOrErr)
  | signedTx (r : SignedTxResponse)

/-- The foreign signing library (LIB), as an abstract black box: one
function per exported operation, taking the already-marshalled C values. -/
structure SignerLib where
  createClient : String → String → Int → Int → Int → Option Bytes
  signCreateOrder :
    Int → Int → Int → Int → Int → Int → Int → Int → Int → Int → Int → Int → Int →
      SignedTxResponse
  signCancelOrder : Int → Int → Int → Int → Int → SignedTxResponse
  signCancelAllOrders : Int → Int → Int → Int → Int → SignedTxResponse
  createAuthToken : Int → Int → Int → StrOrErr

/-- Trace event: one foreign call together with the C values passed. -/
inductive ForeignCall where
  | createClientCall (baseUrl privateKey : String)
      (chainId apiKeyIndex accountIndex : Int)
  | signCreateOrderCall (marketIndex clientOrderIndex baseAmount price isAsk
      orderType timeInForce reduceOnly triggerPrice orderExpiry nonce
      apiKeyIndex accountIndex : Int)
  | signCancelOrderCall (marketIndex orderIndex nonce apiKeyIndex accountIndex : Int)
  | signCancelAllOrdersCall (timeInForce scheduledTime nonce apiKeyIndex accountIndex : Int)
  | createAuthTokenCall (deadlineMs apiKeyIndex accountIndex : Int)

/-- Python truthiness of a c_char_p value: NULL and the empty byte string
are falsy, any non-empty byte string is truthy. -/
def truthy : Option Bytes → Bool
  | none => false
  | some bs => !bs.isEmpty

/-- ctypes.string_at on a pointer known to be truthy. -/
def strAt : Option Bytes → Bytes
  | none => []
  | some bs => bs

/-- `decode(...) if field else None` on one c_char_p field of a composite
result. -/
def decodeField (p : Option Bytes) : PyVal :=
  if truthy p then .pstr (utf8DecodeReplace (strAt p)) else .pnull

/-- _maybe_error: normalize the bare c_char_p returned by CreateClient. -/
def maybe_error (ptr : Option Bytes) : Dict :=
  if truthy ptr then [("error", .pstr (utf8DecodeReplace (strAt ptr)))]
  else [("result", .pstr "ok")]

/-- _unwrap: normalize the two foreign result shapes into one response
dict.  Branches follow the source: composite error, composite success,
simple error, simple value, simple null. -/
def unwrap (result : ForeignResult) : Dict :=
  match result with
  | .signedTx r =>
    if truthy r.err then [("error", .pstr (utf8DecodeReplace (strAt r.err)))]
    else
      [("result", decodeField r.txInfo),
       ("txHash", decodeField r.txHash),
       ("messageToSign", decodeField r.messageToSign)]
  | .simple r =>
    if truthy r.err then [("error", .pstr (utf8DecodeReplace (strAt r.err)))]
    else if truthy r.str then [("result", .pstr (utf8DecodeReplace (strAt r.str)))]
    else [("result", .pnull)]

/-- _unwrap with the decoding step made fallible: a decoder returning
none models a decode that raises, and the failure propagates out of the
unwrapper.  Instantiating it with the (total) replacement decoder shows
the source's unwrapping never raises. -/
def unwrapWith (dec : Bytes → Option String) (result : ForeignResult) : Option Dict :=
  match result with
  | .signedTx r =>
    if truthy r.err then (dec (strAt r.err)).map (fun e => [("error", .pstr e)])
    else do
      let vti ← if truthy r.txInfo then (dec (strAt r.txInfo)).map .pstr else some .pnull
      let vth ← if truthy r.txHash then (dec (strAt r.txHash)).map .pstr else some .pnull
      let vms ←
        if truthy r.messageToSign then (dec (strAt r.messageToSign)).map .pstr
        else some .pnull
      pure [("result", vti), ("txHash", vth), ("messageToSign", vms)]
  | .simple r =>
    if truthy r.err then (dec (strAt r.err)).map (fun e => [("error", .pstr e)])
    else if truthy r.str then (dec (strAt r.str)).map (fun v => [("result", .pstr v)])
    else some [("result", .pnull)]

/-- _maybe_error with a fallible decoder, as for unwrapWith. -/
def maybeErrorWith (dec : Bytes → Option String) (ptr : Option Bytes) : Option Dict :=
  if truthy ptr then (dec (strAt ptr)).map (fun e => [("error", .pstr e)])
  else some [("result", .pstr "ok")]

/-- One entry of _CLIENT_CONFIG.  baseUrl and privateKey are stored as
supplied (raw request values); chainId and accountIndex are coerced with
int() at store time. -/
structure ClientConfig where
  baseUrl : PyVal
  privateKey : PyVal
  chainId : Int
  accountIndex : Int

/-- The module-level mutable registry: _CLIENT_CONFIG and _INITIALISED_KEYS. -/
structure BridgeState where
  clientConfig : List (Int × ClientConfig)
  initialisedKeys : List Int

/-- The registry at process start: both containers empty. -/
def initialState : BridgeState := ⟨[], []⟩

/-- Python dict assignment `_CLIENT_CONFIG[k] = c`: replace the existing
binding in place if the key is present, else append a new binding. -/
def storeConfig : List (Int × ClientConfig) → Int → ClientConfig → List (Int × ClientConfig)
  | [], k, c => [(k, c)]
  | (a, b) :: m, k, c => if a == k then (k, c) :: m else (a, b) :: storeConfig m k c

/-- Python set add `_INITIALISED_KEYS.add(k)`. -/
def addKey (ks : List Int) (k : Int) : List Int :=
  if ks.contains k then ks else ks ++ [k]

/-- `int(params[k])`: subscript then int() coercion, either may raise. -/
def coerceI (params : PyVal) (k : String) : Except String Int := do
  let v ← pySubscript params k
  pyInt v

/-- A handler's effect: the returned dict or a raised exception, the
registry state after the call (mutations before a raise persist), and
the foreign calls issued. -/
abbrev HandlerOut := Except String Dict × BridgeState × List ForeignCall

/-- Steps 1-2 of _ensure_client: read the stored config, then overwrite
it from params when both baseUrl and privateKey are supplied (building
the new config may raise while coercing chainId / accountIndex, in which
case the registry is untouched). -/
def ensureConfigUpdate (params : PyVal) (st : BridgeState) (apiKeyIndex : Int) :
    Except String (Option ClientConfig × BridgeState) :=
  let config := List.lookup apiKeyIndex st.clientConfig
  if pyHasKey params "baseUrl" && pyHasKey params "privateKey" then
    match (do
      let baseUrl ← pySubscript params "baseUrl"
      let privateKey ← pySubscript params "privateKey"
      let chainId ← coerceI params "chainId"
      let accountIndex ← coerceI params "accountIndex"
      pure (ClientConfig.mk baseUrl privateKey chainId accountIndex) :
        Except String ClientConfig) with
    | .error e => .error e
    | .ok cfg =>
      .ok (some cfg, { st with clientConfig := storeConfig st.clientConfig apiKeyIndex cfg })
  else .ok (config, st)

/-- _ensure_client: the ensure-initialized gate.  Mirrors the source:
coerce apiKeyIndex, optionally overwrite the stored config, fail with
client_not_initialized when no config exists, otherwise call the foreign
CreateClient and mark the key initialised on success. -/
def ensure_client (lib : SignerLib) (params : PyVal) (st : BridgeState) : HandlerOut :=
  match coerceI params "apiKeyIndex" with
  | .error e => (.error e, st, [])
  | .ok apiKeyIndex =>
    match ensureConfigUpdate params st apiKeyIndex with
    | .error e => (.error e, st, [])
    | .ok (none, st1) => (.ok [("error", .pstr "client_not_initialized")], st1, [])
    | .ok (some config, st1) =>
      match pyEncode config.baseUrl with
      | .error e => (.error e, st1, [])
      | .ok baseUrl =>
        match pyEncode config.privateKey with
        | .error e => (.error e, st1, [])
        | .ok privateKey =>
          let errPtr := lib.createClient baseUrl privateKey (toCInt config.chainId)
            (toCInt apiKeyIndex) (toCLongLong config.accountIndex)
          let call := ForeignCall.createClientCall baseUrl privateKey
            (toCInt config.chainId) (toCInt apiKeyIndex) (toCLongLong config.accountIndex)
          let outcome := maybe_error errPtr
          if dictHasKey outcome "error" then (.ok outcome, st1, [call])
          else
            (.ok [("result", .pstr "ok")],
              { st1 with initialisedKeys := addKey st1.initialisedKeys apiKeyIndex }, [call])

/-- handle_create_client. -/
def handle_create_client (lib : SignerLib) (params : PyVal) (st : BridgeState) : HandlerOut :=
  ensure_client lib params st

/-- handle_sign_create_order: ensure the client, coerce the thirteen
order fields (in Python evaluation order), call SignCreateOrder, unwrap. -/
def handle_sign_create_order (lib : SignerLib) (params : PyVal) (st : BridgeState) :
    HandlerOut :=
  match ensure_client lib params st with
  | (.error e, st1, tr1) => (.error e, st1, tr1)
  | (.ok ensure, st1, tr1) =>
    if dictHasKey ensure "error" then (.ok ensure, st1, tr1)
    else
      match (do
        let apiKeyIndex ← coerceI params "apiKeyIndex"
        let orderExpiry ← coerceI params "orderExpiry"
        let marketIndex ← coerceI params "marketIndex"
        let clientOrderIndex ← coerceI params "clientOrderIndex"
        let baseAmount ← coerceI params "baseAmount"
        let price ← coerceI params "price"
        let isAsk ← coerceI params "isAsk"
        let orderType ← coerceI params "orderType"
        let timeInForce ← coerceI params "timeInForce"
        let reduceOnly ← coerceI params "reduceOnly"
        let triggerPrice ← coerceI params "triggerPrice"
        let nonce ← coerceI params "nonce"
        let accountIndex ← coerceI params "accountIndex"
        pure (toCInt marketIndex, toCLongLong clientOrderIndex, toCLongLong baseAmount,
          toCInt price, toCInt isAsk, toCInt orderType, toCInt timeInForce,
          toCInt reduceOnly, toCInt triggerPrice, toCLongLong orderExpiry,
          toCLongLong nonce, toCInt apiKeyIndex, toCLongLong accountIndex) :
          Except String (Int × Int × Int × Int × Int × Int × Int × Int × Int × Int ×
            Int × Int × Int)) with
      | .error e => (.error e, st1, tr1)
      | .ok (mi, coi, ba, pr, ia, ot, tif, ro, tp, oe, no, aki, ai) =>
        let r := lib.signCreateOrder mi coi ba pr ia ot tif ro tp oe no aki ai
        (.ok (unwrap (.signedTx r)), st1,
          tr1 ++ [ForeignCall.signCreateOrderCall mi coi ba pr ia ot tif ro tp oe no aki ai])

/-- handle_sign_cancel_order. -/
def handle_sign_cancel_order (lib : SignerLib) (params : PyVal) (st : BridgeState) :
    HandlerOut :=
  match ensure_client lib params st with
  | (.error e, st1, tr1) => (.error e, st1, tr1)
  | (.ok ensure, st1, tr1) =>
    if dictHasKey ensure "error" then (.ok ensure, st1, tr1)
    else
      match (do
        let apiKeyIndex ← coerceI params "apiKeyIndex"
        let marketIndex ← coerceI params "marketIndex"
        let orderIndex ← coerceI params "orderIndex"
        let nonce ← coerceI params "nonce"
        let accountIndex ← coerceI params "accountIndex"
        pure (toCInt marketIndex, toCLongLong orderIndex, toCLongLong nonce,
          toCInt apiKeyIndex, toCLongLong accountIndex) :
          Except String (Int × Int × Int × Int × Int)) with
      | .error e => (.error e, st1, tr1)
      | .ok (mi, oi, no, aki, ai) =>
        let r := lib.signCancelOrder mi oi no aki ai
        (.ok (unwrap (.signedTx r)), st1,
          tr1 ++ [ForeignCall.signCancelOrderCall mi oi no aki ai])

/-- handle_sign_cancel_all. -/
def handle_sign_cancel_all (lib : SignerLib) (params : PyVal) (st : BridgeState) :
    HandlerOut :=
  match ensure_client lib params st with
  | (.error e, st1, tr1) => (.error e, st1, tr1)
  | (.ok ensure, st1, tr1) =>
    if dictHasKey ensure "error" then (.ok ensure, st1, tr1)
    else
      match (do
        let apiKeyIndex ← coerceI params "apiKeyIndex"
        let timeInForce ← coerceI params "timeInForce"
        let scheduledTime ← coerceI params "scheduledTime"
        let nonce ← coerceI params "nonce"
        let accountIndex ← coerceI params "accountIndex"
        pure (toCInt timeInForce, toCLongLong scheduledTime, toCLongLong nonce,
          toCInt apiKeyIndex, toCLongLong accountIndex) :
          Except String (Int × Int × Int × Int × Int)) with
      | .error e => (.error e, st1, tr1)
      | .ok (tif, sch, no, aki, ai) =>
        let r := lib.signCancelAllOrders tif sch no aki ai
        (.ok (unwrap (.signedTx r)), st1,
          tr1 ++ [ForeignCall.signCancelAllOrdersCall tif sch no aki ai])

/-- handle_create_auth_token: the one handler whose foreign result is
the simple string-or-error shape. -/
def handle_create_auth_token (lib : SignerLib) (params : PyVal) (st : BridgeState) :
    HandlerOut :=
  match ensure_client lib params st with
  | (.error e, st1, tr1) => (.error e, st1, tr1)
  | (.ok ensure, st1, tr1) =>
    if dictHasKey ensure "error" then (.ok ensure, st1, tr1)
    else
      match (do
        let apiKeyIndex ← coerceI params "apiKeyIndex"
        let deadlineMs ← coerceI params "deadlineMs"
        let accountIndex ← coerceI params "accountIndex"
        pure (toCLongLong deadlineMs, toCInt apiKeyIndex, toCLongLong accountIndex) :
          Except String (Int × Int × Int)) with
      | .error e => (.error e, st1, tr1)
      | .ok (dl, aki, ai) =>
        let r := lib.createAuthToken dl aki ai
        (.ok (unwrap (.simple r)), st1,
          tr1 ++ [ForeignCall.createAuthTokenCall dl aki ai])

/-- A request handler as stored in HANDLERS. -/
abbrev Handler := SignerLib → PyVal → BridgeState → HandlerOut

/-- The fixed method-name to handler table. -/
def HANDLERS : List (String × Handler) :=
  [("create_client", handle_create_client),
   ("sign_create_order", handle_sign_create_order),
   ("sign_cancel_order", handle_sign_cancel_order),
   ("sign_cancel_all", handle_sign_cancel_all),
   ("create_auth_token", handle_create_auth_token)]

/-- HANDLERS.get(method).  Unhashable method values raise (outside the
dispatch try block, so such a request kills the loop); hashable non-name
values simply miss the table. -/
def handlersGet (method : PyVal) : Except String (Option Handler) :=
  match method with
  | .plist _ => .error "unhashable type: 'list'"
  | .pdict _ => .error "unhashable type: 'dict'"
  | .pstr name => .ok (List.lookup name HANDLERS)
  | _ => .ok none

/-- The per-request body of main(): read id/method/params, look up the
handler, run it inside the try block, attach the correlation id.  The
outer `.error` is an exception that escapes the loop (request.get on a
non-dict, or an unhashable method). -/
def handleRequest (lib : SignerLib) (request : PyVal) (st : BridgeState) :
    Except String (Dict × BridgeState × List ForeignCall) :=
  match pyGetD request "id" .pnull with
  | .error e => .error e
  | .ok reqId =>
    match pyGetD request "method" .pnull with
    | .error e => .error e
    | .ok method =>
      match pyGetD request "params" (.pdict []) with
      | .error e => .error e
      | .ok params =>
        match handlersGet method with
        | .error e => .error e
        | .ok none =>
          .ok ([("id", reqId), ("error", .pstr ("unknown_method:" ++ pyStrFmt method))],
            st, [])
        | .ok (some handler) =>
          match handler lib params st with
          | (.error e, st2, tr) =>
            .ok ([("id", reqId), ("error", .pstr ("exception:" ++ e))], st2, tr)
          | (.ok outcome, st2, tr) => .ok (dictSetdefault outcome "id" reqId, st2, tr)

/-- Python str.strip() with no argument. -/
def pyStrip (s : String) : String :=
  String.mk (((s.toList.dropWhile isPySpace).reverse.dropWhile isPySpace).reverse)

/-- The stdin loop of main(), parameterised by json.loads (jsonParse;
`.error` is a raised json.JSONDecodeError carrying str(exc)).  Returns
the emitted response dicts, the final registry state, and the exception
that escaped the loop, if any. -/
def runLoop (lib : SignerLib) (jsonParse : String → Except String PyVal) :
    List String → BridgeState → List Dict × BridgeState × Option String
  | [], st => ([], st, none)
  | line :: rest, st =>
    let stripped := pyStrip line
    if stripped = "" then runLoop lib jsonParse rest st
    else
      match jsonParse stripped with
      | .error e =>
        let r := runLoop lib jsonParse rest st
        ([("id", .pnull), ("error", .pstr ("invalid_json:" ++ e))] :: r.1, r.2)
      | .ok request =>
        match handleRequest lib request st with
        | .error e => ([], st, some e)
        | .ok (response, st2, _) =>
          let r := runLoop lib jsonParse rest st2
          (response :: r.1, r.2)

/-- A concrete foreign library for witnesses: CreateClient always
succeeds (NULL error), signing operations return a composite result with
payload "i" and hash "h", CreateAuthToken returns the token "t". -/
def okLib : SignerLib :=
  ⟨fun _ _ _ _ _ => none,
   fun _ _ _ _ _ _ _ _ _ _ _ _ _ => ⟨1, some [0x69], some [0x68], none, none⟩,
   fun _ _ _ _ _ => ⟨1, some [0x69], some [0x68], none, none⟩,
   fun _ _ _ _ _ => ⟨1, some [0x69], some [0x68], none, none⟩,
   fun _ _ _ => ⟨some [0x74], none⟩⟩

/-- A foreign library whose CreateClient returns a non-NULL pointer to
the empty string. -/
def emptyErrLib : SignerLib :=
  ⟨fun _ _ _ _ _ => some [],
   fun _ _ _ _ _ _ _ _ _ _ _ _ _ => ⟨1, none, none, none, none⟩,
   fun _ _ _ _ _ => ⟨1, none, none, none, none⟩,
   fun _ _ _ _ _ => ⟨1, none, none, none, none⟩,
   fun _ _ _ => ⟨none, none⟩⟩

/-- C4 (amended): the unwrapper normalizes both foreign shapes; for the
simple shape a non-empty error wins, then a present NON-EMPTY value
yields result, otherwise (absent or empty value) result null; for the
composite shape a non-empty error wins, otherwise result/txHash/
messageToSign are the decoded fields (null when absent or empty); and
txType never appears in any response. -/
theorem c4_unwrap_normalisation :
    (∀ r : StrOrErr,
      (truthy r.err = true →
        unwrap (.simple r) = [("error", .pstr (utf8DecodeReplace (strAt r.err)))]) ∧
      (truthy r.err = false → truthy r.str = true →
        unwrap (.simple r) = [("result", .pstr (utf8DecodeReplace (strAt r.str)))]) ∧
      (truthy r.err = false → truthy r.str = false →
        unwrap (.simple r) = [("result", .pnull)])) ∧
    (∀ r : SignedTxResponse,
      (truthy r.err = true →
        unwrap (.signedTx r) = [("error", .pstr (utf8DecodeReplace (strAt r.err)))]) ∧
      (truthy r.err = false →
        unwrap (.signedTx r) =
          [("result", decodeField r.txInfo), ("txHash", decodeField r.txHash),
           ("messageToSign", decodeField r.messageToSign)])) ∧
    (∀ r : ForeignResult, dictHasKey (unwrap r) "txType" = false) := by
  refine ⟨fun r => ⟨fun h1 => ?_, fun h1 h2 => ?_, fun h1 h2 => ?_⟩,
    fun r => ⟨fun h1 => ?_, fun h1 => ?_⟩, fun r => ?_⟩
  · simp [unwrap, h1]
  · simp [unwrap, h1, h2]
  · simp [unwrap, h1, h2]
  · simp [unwrap, h1]
  · simp [unwrap, h1]
  · cases r with
    | simple s =>
      by_cases h1 : truthy s.err
      · simp [unwrap, h1, dictHasKey]
      · by_cases h2 : truthy s.str <;> simp [unwrap, h1, h2, dictHasKey]
    | signedTx s =>
      by_cases h1 : truthy s.err <;> simp [unwrap, h1, dictHasKey]

/-- C4 witness: a concrete simple success and a concrete composite error. -/
theorem c4_witness :
    unwrap (.simple ⟨some [0x61], none⟩) = [("result", .pstr "a")] ∧
    unwrap (.signedTx ⟨1, some [0x61], some [0x62], none, some [0x65]⟩) =
      [("error", .pstr "e")] :=
  ⟨(c4_unwrap_normalisation.1 ⟨some [0x61], none⟩).2.1 rfl rfl,
   (c4_unwrap_normalisation.2.1 ⟨1, some [0x61], some [0x62], none, some [0x65]⟩).1 rfl⟩

/-- C4 counterexample: a present but empty simple value is unwrapped to
result null, not to the empty-string result the claim requires. -/
theorem c4_counterexample :
    unwrap (.simple ⟨some [], none⟩) = [("result", .pnull)] ∧
    [("result", PyVal.pnull)] ≠ [("result", PyVal.pstr "")] :=
  ⟨rfl, by simp⟩

/-- C5: with the replacement decoder the unwrapper (and _maybe_error)
never raises: instrumenting every decode as fallible and instantiating
it with errors="replace" decoding yields some result for every foreign
value, and invalid UTF-8 byte buffers (which the strict decoder rejects)
do exist. -/
theorem c5_unwrap_total :
    (∀ r : ForeignResult,
      unwrapWith (fun bs => some (utf8DecodeReplace bs)) r = some (unwrap r)) ∧
    (∀ p : Option Bytes,
      maybeErrorWith (fun bs => some (utf8DecodeReplace bs)) p = some (maybe_error p)) ∧
    utf8DecodeStrict [0xFF] = none := by
  refine ⟨fun r => ?_, fun p => ?_, rfl⟩
  · cases r with
    | simple s =>
      by_cases h1 : truthy s.err
      · simp [unwrapWith, unwrap, h1]
      · by_cases h2 : truthy s.str <;> simp [unwrapWith, unwrap, h1, h2]
    | signedTx s =>
      by_cases h1 : truthy s.err
      · simp [unwrapWith, unwrap, h1]
      · by_cases h2 : truthy s.txInfo <;> by_cases h3 : truthy s.txHash <;>
          by_cases h4 : truthy s.messageToSign <;>
          simp [unwrapWith, unwrap, decodeField, h1, h2, h3, h4]
  · by_cases h : truthy p <;> simp [maybeErrorWith, maybe_error, h]

/-- Under the C1 premises the ensure-initialized gate fails with
client_not_initialized, leaves the registry untouched and issues no
foreign call. -/
lemma ensure_client_no_config (lib : SignerLib) (params : PyVal) (st : BridgeState)
    (k : Int) (hk : coerceI params "apiKeyIndex" = .ok k)
    (hnone : List.lookup k st.clientConfig = none)
    (hmiss : (pyHasKey params "baseUrl" && pyHasKey params "privateKey") = false) :
    ensure_client lib params st =
      (.ok [("error", .pstr "client_not_initialized")], st, []) := by
  unfold ensure_client ensureConfigUpdate
  rw [hk]
  simp [hmiss, hnone]

/-- C1: a privileged request whose apiKeyIndex has no stored
SigningConfig and whose params do not supply both baseUrl and privateKey
is answered with error client_not_initialized by each of the four
privileged handlers, with no foreign signing operation and no
CreateClient call issued and the registry unchanged. -/
theorem c1_privileged_requires_config (lib : SignerLib) (params : PyVal)
    (st : BridgeState) (k : Int)
    (hk : coerceI params "apiKeyIndex" = .ok k)
    (hnone : List.lookup k st.clientConfig = none)
    (hmiss : (pyHasKey params "baseUrl" && pyHasKey params "privateKey") = false) :
    handle_sign_create_order lib params st =
      (.ok [("error", .pstr "client_not_initialized")], st, []) ∧
    handle_sign_cancel_order lib params st =
      (.ok [("error", .pstr "client_not_initialized")], st, []) ∧
    handle_sign_cancel_all lib params st =
      (.ok [("error", .pstr "client_not_initialized")], st, []) ∧
    handle_create_auth_token lib params st =
      (.ok [("error", .pstr "client_not_initialized")], st, []) := by
  have he := ensure_client_no_config lib params st k hk hnone hmiss
  refine ⟨?_, ?_, ?_, ?_⟩
  · unfold handle_sign_create_order
    rw [he]
    rfl
  · unfold handle_sign_cancel_order
    rw [he]
    rfl
  · unfold handle_sign_cancel_all
    rw [he]
    rfl
  · unfold handle_create_auth_token
    rw [he]
    rfl


/-- C1 witness: key 7 was never configured and no credentials are
supplied, so every privileged handler answers client_not_initialized. -/
theorem c1_witness :
    handle_sign_create_order okLib (.pdict [("apiKeyIndex", .pint 7)]) initialState =
      (.ok [("error", .pstr "client_not_initialized")], initialState, []) ∧
    handle_sign_cancel_order okLib (.pdict [("apiKeyIndex", .pint 7)]) initialState =
      (.ok [("error", .pstr "client_not_initialized")], initialState, []) ∧
    handle_sign_cancel_all okLib (.pdict [("apiKeyIndex", .pint 7)]) initialState =
      (.ok [("error", .pstr "client_not_initialized")], initialState, []) ∧
    handle_create_auth_token okLib (.pdict [("apiKeyIndex", .pint 7)]) initialState =
      (.ok [("error", .pstr "client_not_initialized")], initialState, []) :=
  c1_privileged_requires_config okLib (.pdict [("apiKeyIndex", .pint 7)]) initialState 7
    rfl rfl rfl

/-- The overwrite step never touches _INITIALISED_KEYS. -/
lemma ensureConfigUpdate_keys (params : PyVal) (st : BridgeState) (k : Int)
    (copt : Option ClientConfig) (st1 : BridgeState)
    (h : ensureConfigUpdate params st k = .ok (copt, st1)) :
    st1.initialisedKeys = st.initialisedKeys := by
  unfold ensureConfigUpdate at h
  split at h
  · split at h
    · exact absurd h (by simp)
    · injection h with h
      cases h
      rfl
  · injection h with h
    cases h
    rfl

/-- Adding a key makes it a member of the set. -/
lemma addKey_contains (ks : List Int) (k : Int) : (addKey ks k).contains k = true := by
  unfold addKey
  split
  · assumption
  · simp

/-- C2 (amended): whenever a SigningConfig exists after the optional
overwrite step (its url and key being strings, as SigningConfig
requires), CreateClient is called exactly once with the stored config's
marshalled endpoint, private key, chain id, apiKeyIndex and account
index; a non-EMPTY error means the key is not added to InitializedSet
and the error text is returned, otherwise (NULL or empty error) the key
is added and result ok is returned. -/
theorem c2_ensure_calls_create_client (lib : SignerLib) (params : PyVal)
    (st : BridgeState) (k : Int) (cfg : ClientConfig) (st1 : BridgeState)
    (bu pk : String)
    (hk : coerceI params "apiKeyIndex" = .ok k)
    (hupd : ensureConfigUpdate params st k = .ok (some cfg, st1))
    (hbu : pyEncode cfg.baseUrl = .ok bu)
    (hpk : pyEncode cfg.privateKey = .ok pk) :
    (truthy (lib.createClient bu pk (toCInt cfg.chainId) (toCInt k)
        (toCLongLong cfg.accountIndex)) = true →
      ensure_client lib params st =
        (.ok [("error", .pstr (utf8DecodeReplace (strAt (lib.createClient bu pk
            (toCInt cfg.chainId) (toCInt k) (toCLongLong cfg.accountIndex)))))],
         st1,
         [.createClientCall bu pk (toCInt cfg.chainId) (toCInt k)
            (toCLongLong cfg.accountIndex)]) ∧
      st1.initialisedKeys = st.initialisedKeys) ∧
    (truthy (lib.createClient bu pk (toCInt cfg.chainId) (toCInt k)
        (toCLongLong cfg.accountIndex)) = false →
      ensure_client lib params st =
        (.ok [("result", .pstr "ok")],
         { st1 with initialisedKeys := addKey st1.initialisedKeys k },
         [.createClientCall bu pk (toCInt cfg.chainId) (toCInt k)
            (toCLongLong cfg.accountIndex)]) ∧
      (addKey st1.initialisedKeys k).contains k = true) := by
  constructor
  · intro htr
    refine ⟨?_, ensureConfigUpdate_keys params st k (some cfg) st1 hupd⟩
    simp only [ensure_client, hk, hupd, hbu, hpk]
    simp [maybe_error, htr, dictHasKey]
  · intro htr
    refine ⟨?_, addKey_contains st1.initialisedKeys k⟩
    simp only [ensure_client, hk, hupd, hbu, hpk]
    simp [maybe_error, htr, dictHasKey]

/-- C2 witness: fresh credentials for key 0 against a CreateClient that
reports no error. -/
theorem c2_witness :
    ensure_client okLib
      (.pdict [("apiKeyIndex", .pint 0), ("baseUrl", .pstr "u"),
        ("privateKey", .pstr "p"), ("chainId", .pint 1), ("accountIndex", .pint 5)])
      initialState =
      (.ok [("result", .pstr "ok")],
       ⟨[(0, ⟨.pstr "u", .pstr "p", 1, 5⟩)], [0]⟩,
       [.createClientCall "u" "p" 1 0 5]) ∧
    ([0] : List Int).contains 0 = true :=
  (c2_ensure_calls_create_client okLib
    (.pdict [("apiKeyIndex", .pint 0), ("baseUrl", .pstr "u"),
      ("privateKey", .pstr "p"), ("chainId", .pint 1), ("accountIndex", .pint 5)])
    initialState 0 ⟨.pstr "u", .pstr "p", 1, 5⟩ ⟨[(0, ⟨.pstr "u", .pstr "p", 1, 5⟩)], []⟩
    "u" "p" rfl rfl rfl rfl).2 rfl

/-- C2 counterexample: CreateClient returning a non-null pointer to the
EMPTY string is treated as success by the code: the key IS added to
InitializedSet and result ok is returned, contrary to the claim's
reading of any non-null return as an error. -/
theorem c2_counterexample :
    emptyErrLib.createClient "u" "p" 1 0 5 = some [] ∧ some ([] : Bytes) ≠ none ∧
    ensure_client emptyErrLib
      (.pdict [("apiKeyIndex", .pint 0), ("baseUrl", .pstr "u"),
        ("privateKey", .pstr "p"), ("chainId", .pint 1), ("accountIndex", .pint 5)])
      initialState =
      (.ok [("result", .pstr "ok")],
       ⟨[(0, ⟨.pstr "u", .pstr "p", 1, 5⟩)], [0]⟩,
       [.createClientCall "u" "p" 1 0 5]) :=
  ⟨rfl, by simp, rfl⟩

/-- Keys absent from the projection have no entries. -/
lemma not_mem_filter_nil (k : Int) :
    ∀ m : List (Int × ClientConfig), k ∉ m.map Prod.fst →
      m.filter (fun p => p.1 == k) = [] := by
  intro m
  induction m with
  | nil => intro _; rfl
  | cons a m ih =>
    intro h
    obtain ⟨a1, a2⟩ := a
    simp only [List.map_cons, List.mem_cons] at h
    push_neg at h
    have hb : ((a1, a2).1 == k) = false := by
      simp only []
      exact beq_eq_false_iff_ne.mpr fun hq => h.1 hq.symm
    simp only [List.filter_cons, hb]
    exact ih h.2

/-- Every key of the stored list is an old key or the stored key. -/
lemma storeConfig_fst_mem (k : Int) (c : ClientConfig) :
    ∀ m : List (Int × ClientConfig), ∀ x, x ∈ (storeConfig m k c).map Prod.fst →
      x ∈ m.map Prod.fst ∨ x = k := by
  intro m
  induction m with
  | nil =>
    intro x hx
    simp only [storeConfig, List.map_cons, List.map_nil, List.mem_singleton] at hx
    exact Or.inr hx
  | cons a m ih =>
    intro x hx
    obtain ⟨a1, a2⟩ := a
    by_cases hak : a1 = k
    · rw [show storeConfig ((a1, a2) :: m) k c = (k, c) :: m by
        simp [storeConfig, hak]] at hx
      simp only [List.map_cons, List.mem_cons] at hx
      rcases hx with rfl | hx
      · exact Or.inr rfl
      · exact Or.inl (by simp [hx])
    · rw [show storeConfig ((a1, a2) :: m) k c = (a1, a2) :: storeConfig m k c by
        simp [storeConfig, hak]] at hx
      simp only [List.map_cons, List.mem_cons] at hx
      rcases hx with rfl | hx
      · exact Or.inl (by simp)
      · rcases ih x hx with hm | hk
        · exact Or.inl (by simp [hm])
        · exact Or.inr hk

/-- Python dict assignment semantics: after storing, the key has exactly
one entry, keys stay pairwise distinct, and lookup returns the stored
value. -/
lemma storeConfig_spec (k : Int) (c : ClientConfig) :
    ∀ m : List (Int × ClientConfig), (m.map Prod.fst).Nodup →
      ((storeConfig m k c).filter (fun p => p.1 == k)).length = 1 ∧
      ((storeConfig m k c).map Prod.fst).Nodup ∧
      List.lookup k (storeConfig m k c) = some c := by
  intro m
  induction m with
  | nil =>
    intro _
    refine ⟨?_, ?_, ?_⟩ <;> simp [storeConfig, List.lookup]
  | cons a m ih =>
    intro h
    obtain ⟨a1, a2⟩ := a
    simp only [List.map_cons, List.nodup_cons] at h
    by_cases hak : a1 = k
    · subst hak
      rw [show storeConfig ((a1, a2) :: m) a1 c = (a1, c) :: m by simp [storeConfig]]
      refine ⟨?_, ?_, ?_⟩
      · have hb : ((a1, c).1 == a1) = true := by simp
        simp only [List.filter_cons, hb, if_true]
        rw [not_mem_filter_nil a1 m h.1]
        rfl
      · simp only [List.map_cons]
        exact List.nodup_cons.mpr ⟨h.1, h.2⟩
      · rw [List.lookup_cons]
        simp
    · rw [show storeConfig ((a1, a2) :: m) k c = (a1, a2) :: storeConfig m k c by
        simp [storeConfig, hak]]
      obtain ⟨ihc, ihn, ihl⟩ := ih h.2
      have hb : ((a1, a2).1 == k) = false := by
        simp only []
        exact beq_eq_false_iff_ne.mpr hak
      refine ⟨?_, ?_, ?_⟩
      · simp only [List.filter_cons, hb]
        exact ihc
      · simp only [List.map_cons]
        refine List.nodup_cons.mpr ⟨?_, ihn⟩
        intro hmem
        rcases storeConfig_fst_mem k c m a1 hmem with hm | hk
        · exact h.1 hm
        · exact hak hk
      · rw [List.lookup_cons]
        rw [show (k == a1) = false from beq_eq_false_iff_ne.mpr fun hq => hak hq.symm]
        exact ihl

/-- The overwrite step with full string credentials present in params. -/
lemma ensureConfigUpdate_creds (entries : List (String × PyVal)) (st : BridgeState)
    (k ci ai : Int) (bu pk : String)
    (hbu : List.lookup "baseUrl" entries = some (.pstr bu))
    (hpk : List.lookup "privateKey" entries = some (.pstr pk))
    (hci : coerceI (.pdict entries) "chainId" = .ok ci)
    (hai : coerceI (.pdict entries) "accountIndex" = .ok ai) :
    ensureConfigUpdate (.pdict entries) st k =
      .ok (some ⟨.pstr bu, .pstr pk, ci, ai⟩,
        { st with clientConfig :=
            storeConfig st.clientConfig k ⟨.pstr bu, .pstr pk, ci, ai⟩ }) := by
  unfold ensureConfigUpdate
  simp only [pyHasKey, hbu, hpk, pySubscript, hci, hai]
  rfl

/-- The ensure-initialized gate succeeds after a config update when the
stored credentials are strings and the foreign CreateClient is falsy. -/
lemma ensure_client_ok_of_update (lib : SignerLib) (params : PyVal) (st : BridgeState)
    (k : Int) (cfg : ClientConfig) (st1 : BridgeState) (bu pk : String)
    (hk : coerceI params "apiKeyIndex" = .ok k)
    (hupd : ensureConfigUpdate params st k = .ok (some cfg, st1))
    (hbu : pyEncode cfg.baseUrl = .ok bu)
    (hpk : pyEncode cfg.privateKey = .ok pk)
    (hcc : truthy (lib.createClient bu pk (toCInt cfg.chainId) (toCInt k)
        (toCLongLong cfg.accountIndex)) = false) :
    ensure_client lib params st =
      (.ok [("result", .pstr "ok")],
       { st1 with initialisedKeys := addKey st1.initialisedKeys k },
       [.createClientCall bu pk (toCInt cfg.chainId) (toCInt k)
          (toCLongLong cfg.accountIndex)]) := by
  simp only [ensure_client, hk, hupd, hbu, hpk]
  simp [maybe_error, hcc, dictHasKey]

/-- C8: calling create_client twice with identical full credentials
(against a CreateClient that reports no error) returns result ok both
times and leaves exactly one SigningConfig entry for the key: the second
call overwrites the first, it does not duplicate it. -/
theorem c8_create_client_idempotent (lib : SignerLib) (st : BridgeState)
    (entries : List (String × PyVal)) (k ci ai : Int) (bu pk : String)
    (hk : coerceI (.pdict entries) "apiKeyIndex" = .ok k)
    (hbu : List.lookup "baseUrl" entries = some (.pstr bu))
    (hpk : List.lookup "privateKey" entries = some (.pstr pk))
    (hci : coerceI (.pdict entries) "chainId" = .ok ci)
    (hai : coerceI (.pdict entries) "accountIndex" = .ok ai)
    (hnd : (st.clientConfig.map Prod.fst).Nodup)
    (hcc : truthy (lib.createClient bu pk (toCInt ci) (toCInt k) (toCLongLong ai)) = false) :
    handle_create_client lib (.pdict entries) st =
      (.ok [("result", .pstr "ok")],
       ⟨storeConfig st.clientConfig k ⟨.pstr bu, .pstr pk, ci, ai⟩,
        addKey st.initialisedKeys k⟩,
       [.createClientCall bu pk (toCInt ci) (toCInt k) (toCLongLong ai)]) ∧
    handle_create_client lib (.pdict entries)
      ⟨storeConfig st.clientConfig k ⟨.pstr bu, .pstr pk, ci, ai⟩,
       addKey st.initialisedKeys k⟩ =
      (.ok [("result", .pstr "ok")],
       ⟨storeConfig (storeConfig st.clientConfig k ⟨.pstr bu, .pstr pk, ci, ai⟩) k
          ⟨.pstr bu, .pstr pk, ci, ai⟩,
        addKey (addKey st.initialisedKeys k) k⟩,
       [.createClientCall bu pk (toCInt ci) (toCInt k) (toCLongLong ai)]) ∧
    ((storeConfig (storeConfig st.clientConfig k ⟨.pstr bu, .pstr pk, ci, ai⟩) k
        ⟨.pstr bu, .pstr pk, ci, ai⟩).filter (fun p => p.1 == k)).length = 1 ∧
    List.lookup k (storeConfig (storeConfig st.clientConfig k ⟨.pstr bu, .pstr pk, ci, ai⟩) k
        ⟨.pstr bu, .pstr pk, ci, ai⟩) = some ⟨.pstr bu, .pstr pk, ci, ai⟩ := by
  have hs1 := storeConfig_spec k ⟨.pstr bu, .pstr pk, ci, ai⟩ st.clientConfig hnd
  have hs2 := storeConfig_spec k ⟨.pstr bu, .pstr pk, ci, ai⟩
    (storeConfig st.clientConfig k ⟨.pstr bu, .pstr pk, ci, ai⟩) hs1.2.1
  refine ⟨?_, ?_, hs2.1, hs2.2.2⟩
  · exact ensure_client_ok_of_update lib (.pdict entries) st k ⟨.pstr bu, .pstr pk, ci, ai⟩
      { st with clientConfig := storeConfig st.clientConfig k ⟨.pstr bu, .pstr pk, ci, ai⟩ }
      bu pk hk (ensureConfigUpdate_creds entries st k ci ai bu pk hbu hpk hci hai) rfl rfl hcc
  · exact ensure_client_ok_of_update lib (.pdict entries)
      ⟨storeConfig st.clientConfig k ⟨.pstr bu, .pstr pk, ci, ai⟩, addKey st.initialisedKeys k⟩
      k ⟨.pstr bu, .pstr pk, ci, ai⟩ _ bu pk hk
      (ensureConfigUpdate_creds entries
        ⟨storeConfig st.clientConfig k ⟨.pstr bu, .pstr pk, ci, ai⟩, addKey st.initialisedKeys k⟩
        k ci ai bu pk hbu hpk hci hai) rfl rfl hcc

/-- C8 witness: two identical create_client calls for key 0 starting
from the empty registry. -/
theorem c8_witness :
    handle_create_client okLib
      (.pdict [("apiKeyIndex", .pint 0), ("baseUrl", .pstr "u"),
        ("privateKey", .pstr "p"), ("chainId", .pint 1), ("accountIndex", .pint 5)])
      initialState =
      (.ok [("result", .pstr "ok")],
       ⟨[(0, ⟨.pstr "u", .pstr "p", 1, 5⟩)], [0]⟩, [.createClientCall "u" "p" 1 0 5]) ∧
    handle_create_client okLib
      (.pdict [("apiKeyIndex", .pint 0), ("baseUrl", .pstr "u"),
        ("privateKey", .pstr "p"), ("chainId", .pint 1), ("accountIndex", .pint 5)])
      ⟨[(0, ⟨.pstr "u", .pstr "p", 1, 5⟩)], [0]⟩ =
      (.ok [("result", .pstr "ok")],
       ⟨[(0, ⟨.pstr "u", .pstr "p", 1, 5⟩)], [0]⟩, [.createClientCall "u" "p" 1 0 5]) ∧
    (([(0, ⟨.pstr "u", .pstr "p", 1, 5⟩)] : List (Int × ClientConfig)).filter
      (fun p => p.1 == 0)).length = 1 ∧
    List.lookup 0 ([(0, ⟨.pstr "u", .pstr "p", 1, 5⟩)] : List (Int × ClientConfig)) =
      some ⟨.pstr "u", .pstr "p", 1, 5⟩ :=
  c8_create_client_idempotent okLib initialState
    [("apiKeyIndex", .pint 0), ("baseUrl", .pstr "u"), ("privateKey", .pstr "p"),
     ("chainId", .pint 1), ("accountIndex", .pint 5)]
    0 1 5 "u" "p" rfl rfl rfl rfl rfl List.nodup_nil rfl

/-- When credentials are supplied but chainId or accountIndex is missing
or not coercible, building the replacement config raises before the
assignment, so the registry is untouched. -/
lemma ensureConfigUpdate_raises (entries : List (String × PyVal)) (st : BridgeState)
    (k : Int) (e : String) (vbu vpk : PyVal)
    (hbu : List.lookup "baseUrl" entries = some vbu)
    (hpk : List.lookup "privateKey" entries = some vpk)
    (herr : coerceI (.pdict entries) "chainId" = .error e ∨
      (∃ ci, coerceI (.pdict entries) "chainId" = .ok ci ∧
        coerceI (.pdict entries) "accountIndex" = .error e)) :
    ensureConfigUpdate (.pdict entries) st k = .error e := by
  unfold ensureConfigUpdate
  rcases herr with h | ⟨ci, hok, h⟩
  · simp only [pyHasKey, hbu, hpk, pySubscript, h]
    rfl
  · simp only [pyHasKey, hbu, hpk, pySubscript, hok, h]
    rfl

/-- A raise inside the overwrite step propagates out of the gate with
the registry unchanged and no foreign call. -/
lemma ensure_client_raises_of_update (lib : SignerLib) (params : PyVal)
    (st : BridgeState) (k : Int) (e : String)
    (hk : coerceI params "apiKeyIndex" = .ok k)
    (hupd : ensureConfigUpdate params st k = .error e) :
    ensure_client lib params st = (.error e, st, []) := by
  simp only [ensure_client, hk, hupd]

/-- C9: if params contain both baseUrl and privateKey but chainId or
accountIndex is missing or not integer-coercible, every handler raises
before mutating anything: the registry and InitializedSet are left
exactly as they were, no foreign call is made, and the dispatcher
surfaces the raise as an exception error response carrying the request
id. -/
theorem c9_overwrite_atomic (lib : SignerLib) (st : BridgeState)
    (entries : List (String × PyVal)) (k : Int) (e : String) (vbu vpk : PyVal)
    (hk : coerceI (.pdict entries) "apiKeyIndex" = .ok k)
    (hbu : List.lookup "baseUrl" entries = some vbu)
    (hpk : List.lookup "privateKey" entries = some vpk)
    (herr : coerceI (.pdict entries) "chainId" = .error e ∨
      (∃ ci, coerceI (.pdict entries) "chainId" = .ok ci ∧
        coerceI (.pdict entries) "accountIndex" = .error e)) :
    handle_create_client lib (.pdict entries) st = (.error e, st, []) ∧
    handle_sign_create_order lib (.pdict entries) st = (.error e, st, []) ∧
    handle_sign_cancel_order lib (.pdict entries) st = (.error e, st, []) ∧
    handle_sign_cancel_all lib (.pdict entries) st = (.error e, st, []) ∧
    handle_create_auth_token lib (.pdict entries) st = (.error e, st, []) ∧
    ∀ idv : PyVal, ∀ m ∈ ["create_client", "sign_create_order", "sign_cancel_order",
        "sign_cancel_all", "create_auth_token"],
      handleRequest lib
        (.pdict [("id", idv), ("method", .pstr m), ("params", .pdict entries)]) st =
        .ok ([("id", idv), ("error", .pstr ("exception:" ++ e))], st, []) := by
  have hens : ensure_client lib (.pdict entries) st = (.error e, st, []) :=
    ensure_client_raises_of_update lib (.pdict entries) st k e hk
      (ensureConfigUpdate_raises entries st k e vbu vpk hbu hpk herr)
  have h1 : handle_create_client lib (.pdict entries) st = (.error e, st, []) := hens
  have h2 : handle_sign_create_order lib (.pdict entries) st = (.error e, st, []) := by
    unfold handle_sign_create_order
    rw [hens]
  have h3 : handle_sign_cancel_order lib (.pdict entries) st = (.error e, st, []) := by
    unfold handle_sign_cancel_order
    rw [hens]
  have h4 : handle_sign_cancel_all lib (.pdict entries) st = (.error e, st, []) := by
    unfold handle_sign_cancel_all
    rw [hens]
  have h5 : handle_create_auth_token lib (.pdict entries) st = (.error e, st, []) := by
    unfold handle_create_auth_token
    rw [hens]
  refine ⟨h1, h2, h3, h4, h5, ?_⟩
  intro idv m hm
  simp only [List.mem_cons, List.mem_singleton, List.not_mem_nil, or_false] at hm
  rcases hm with rfl | rfl | rfl | rfl | rfl
  · have hred : handleRequest lib
        (.pdict [("id", idv), ("method", .pstr "create_client"), ("params", .pdict entries)])
        st =
        (match handle_create_client lib (.pdict entries) st with
        | (.error e2, st2, tr) =>
          .ok ([("id", idv), ("error", .pstr ("exception:" ++ e2))], st2, tr)
        | (.ok outcome, st2, tr) => .ok (dictSetdefault outcome "id" idv, st2, tr)) := rfl
    rw [hred, h1]
  · have hred : handleRequest lib
        (.pdict [("id", idv), ("method", .pstr "sign_create_order"), ("params", .pdict entries)])
        st =
        (match handle_sign_create_order lib (.pdict entries) st with
        | (.error e2, st2, tr) =>
          .ok ([("id", idv), ("error", .pstr ("exception:" ++ e2))], st2, tr)
        | (.ok outcome, st2, tr) => .ok (dictSetdefault outcome "id" idv, st2, tr)) := rfl
    rw [hred, h2]
  · have hred : handleRequest lib
        (.pdict [("id", idv), ("method", .pstr "sign_cancel_order"), ("params", .pdict entries)])
        st =
        (match handle_sign_cancel_order lib (.pdict entries) st with
        | (.error e2, st2, tr) =>
          .ok ([("id", idv), ("error", .pstr ("exception:" ++ e2))], st2, tr)
        | (.ok outcome, st2, tr) => .ok (dictSetdefault outcome "id" idv, st2, tr)) := rfl
    rw [hred, h3]
  · have hred : handleRequest lib
        (.pdict [("id", idv), ("method", .pstr "sign_cancel_all"), ("params", .pdict entries)])
        st =
        (match handle_sign_cancel_all lib (.pdict entries) st with
        | (.error e2, st2, tr) =>
          .ok ([("id", idv), ("error", .pstr ("exception:" ++ e2))], st2, tr)
        | (.ok outcome, st2, tr) => .ok (dictSetdefault outcome "id" idv, st2, tr)) := rfl
    rw [hred, h4]
  · have hred : handleRequest lib
        (.pdict [("id", idv), ("method", .pstr "create_auth_token"), ("params", .pdict entries)])
        st =
        (match handle_create_auth_token lib (.pdict entries) st with
        | (.error e2, st2, tr) =>
          .ok ([("id", idv), ("error", .pstr ("exception:" ++ e2))], st2, tr)
        | (.ok outcome, st2, tr) => .ok (dictSetdefault outcome "id" idv, st2, tr)) := rfl
    rw [hred, h5]

/-- C9 witness: credentials present but chainId missing; the KeyError
surfaces as an exception response and the registry stays empty. -/
theorem c9_witness :
    handle_create_client okLib
      (.pdict [("apiKeyIndex", .pint 0), ("baseUrl", .pstr "u"), ("privateKey", .pstr "p")])
      initialState = (.error "'chainId'", initialState, []) ∧
    handleRequest okLib
      (.pdict [("id", .pint 4), ("method", .pstr "create_client"),
        ("params", .pdict [("apiKeyIndex", .pint 0), ("baseUrl", .pstr "u"),
          ("privateKey", .pstr "p")])]) initialState =
      .ok ([("id", .pint 4), ("error", .pstr "exception:'chainId'")], initialState, []) :=
  have h := c9_overwrite_atomic okLib initialState
    [("apiKeyIndex", .pint 0), ("baseUrl", .pstr "u"), ("privateKey", .pstr "p")]
    0 "'chainId'" (.pstr "u") (.pstr "p") rfl rfl rfl (Or.inl rfl)
  ⟨h.1, h.2.2.2.2.2 (.pint 4) "create_client" (by simp)⟩

/-- Appending a fresh key finds the appended value. -/
lemma lookup_append_of_none (k : String) (v : PyVal) :
    ∀ d : Dict, List.lookup k d = none → List.lookup k (d ++ [(k, v)]) = some v := by
  intro d
  induction d with
  | nil => intro _; simp [List.lookup]
  | cons a d ih =>
    intro h
    obtain ⟨a1, a2⟩ := a
    rw [List.lookup_cons] at h
    cases hb : (k == a1) with
    | true => rw [hb] at h; exact absurd h (by simp)
    | false =>
      rw [hb] at h
      rw [List.cons_append, List.lookup_cons, hb]
      exact ih h

/-- A handler outcome dict is well-shaped: either an error response
carrying none of the payload fields, or a result response carrying no
error. -/
def wellShaped (d : Dict) : Prop :=
  (dictHasKey d "error" = true ∧ dictHasKey d "result" = false ∧
    dictHasKey d "txHash" = false ∧ dictHasKey d "messageToSign" = false) ∨
  (dictHasKey d "error" = false ∧ dictHasKey d "result" = true)

/-- _maybe_error outcomes are well-shaped and never carry an id. -/
lemma maybe_error_shape (p : Option Bytes) :
    wellShaped (maybe_error p) ∧ List.lookup "id" (maybe_error p) = none := by
  by_cases h : truthy p
  · rw [show maybe_error p = [("error", .pstr (utf8DecodeReplace (strAt p)))] from by
      simp [maybe_error, h]]
    exact ⟨Or.inl ⟨rfl, rfl, rfl, rfl⟩, rfl⟩
  · rw [show maybe_error p = [("result", .pstr "ok")] from by simp [maybe_error, h]]
    exact ⟨Or.inr ⟨rfl, rfl⟩, rfl⟩

/-- _unwrap outcomes are well-shaped and never carry an id. -/
lemma unwrap_shape (r : ForeignResult) :
    wellShaped (unwrap r) ∧ List.lookup "id" (unwrap r) = none := by
  cases r with
  | simple s =>
    by_cases h1 : truthy s.err
    · rw [show unwrap (.simple s) = [("error", .pstr (utf8DecodeReplace (strAt s.err)))]
        from by simp [unwrap, h1]]
      exact ⟨Or.inl ⟨rfl, rfl, rfl, rfl⟩, rfl⟩
    · by_cases h2 : truthy s.str
      · rw [show unwrap (.simple s) = [("result", .pstr (utf8DecodeReplace (strAt s.str)))]
          from by simp [unwrap, h1, h2]]
        exact ⟨Or.inr ⟨rfl, rfl⟩, rfl⟩
      · rw [show unwrap (.simple s) = [("result", .pnull)] from by simp [unwrap, h1, h2]]
        exact ⟨Or.inr ⟨rfl, rfl⟩, rfl⟩
  | signedTx s =>
    by_cases h1 : truthy s.err
    · rw [show unwrap (.signedTx s) = [("error", .pstr (utf8DecodeReplace (strAt s.err)))]
        from by simp [unwrap, h1]]
      exact ⟨Or.inl ⟨rfl, rfl, rfl, rfl⟩, rfl⟩
    · rw [show unwrap (.signedTx s) =
          [("result", decodeField s.txInfo), ("txHash", decodeField s.txHash),
           ("messageToSign", decodeField s.messageToSign)] from by simp [unwrap, h1]]
      exact ⟨Or.inr ⟨rfl, rfl⟩, rfl⟩

/-- Outcomes the ensure-initialized gate returns (without raising) are
well-shaped and never carry an id. -/
lemma ensure_client_shape (lib : SignerLib) (params : PyVal) (st : BridgeState)
    (d : Dict) (st2 : BridgeState) (tr : List ForeignCall)
    (h : ensure_client lib params st = (.ok d, st2, tr)) :
    wellShaped d ∧ List.lookup "id" d = none := by
  unfold ensure_client at h
  split at h
  · exact absurd h (by simp)
  · split at h
    · exact absurd h (by simp)
    · simp only [Prod.mk.injEq, Except.ok.injEq] at h
      obtain ⟨hd, -, -⟩ := h
      subst hd
      exact ⟨Or.inl ⟨rfl, rfl, rfl, rfl⟩, rfl⟩
    · split at h
      · exact absurd h (by simp)
      · split at h
        · exact absurd h (by simp)
        · dsimp only at h
          split at h
          · simp only [Prod.mk.injEq, Except.ok.injEq] at h
            obtain ⟨hd, -, -⟩ := h
            subst hd
            exact maybe_error_shape _
          · simp only [Prod.mk.injEq, Except.ok.injEq] at h
            obtain ⟨hd, -, -⟩ := h
            subst hd
            exact ⟨Or.inr ⟨rfl, rfl⟩, rfl⟩

/-- handle_create_client outcomes are well-shaped and id-free. -/
lemma handle_create_client_shape (lib : SignerLib) (params : PyVal) (st : BridgeState)
    (d : Dict) (st2 : BridgeState) (tr : List ForeignCall)
    (h : handle_create_client lib params st = (.ok d, st2, tr)) :
    wellShaped d ∧ List.lookup "id" d = none :=
  ensure_client_shape lib params st d st2 tr h

/-- handle_sign_create_order outcomes are well-shaped and id-free. -/
lemma handle_sign_create_order_shape (lib : SignerLib) (params : PyVal) (st : BridgeState)
    (d : Dict) (st2 : BridgeState) (tr : List ForeignCall)
    (h : handle_sign_create_order lib params st = (.ok d, st2, tr)) :
    wellShaped d ∧ List.lookup "id" d = none := by
  rcases he : ensure_client lib params st with ⟨ens, st1, tr1⟩
  unfold handle_sign_create_order at h
  rw [he] at h
  cases ens with
  | error e => simp at h
  | ok ensD =>
    dsimp only at h
    by_cases hke : dictHasKey ensD "error"
    · rw [if_pos hke] at h
      simp only [Prod.mk.injEq, Except.ok.injEq] at h
      obtain ⟨hd, -, -⟩ := h
      subst hd
      exact ensure_client_shape lib params st ensD st1 tr1 he
    · rw [if_neg hke] at h
      split at h
      · exact absurd h (by simp)
      · simp only [Prod.mk.injEq, Except.ok.injEq] at h
        obtain ⟨hd, -, -⟩ := h
        subst hd
        exact unwrap_shape _

/-- handle_sign_cancel_order outcomes are well-shaped and id-free. -/
lemma handle_sign_cancel_order_shape (lib : SignerLib) (params : PyVal) (st : BridgeState)
    (d : Dict) (st2 : BridgeState) (tr : List ForeignCall)
    (h : handle_sign_cancel_order lib params st = (.ok d, st2, tr)) :
    wellShaped d ∧ List.lookup "id" d = none := by
  rcases he : ensure_client lib params st with ⟨ens, st1, tr1⟩
  unfold handle_sign_cancel_order at h
  rw [he] at h
  cases ens with
  | error e => simp at h
  | ok ensD =>
    dsimp only at h
    by_cases hke : dictHasKey ensD "error"
    · rw [if_pos hke] at h
      simp only [Prod.mk.injEq, Except.ok.injEq] at h
      obtain ⟨hd, -, -⟩ := h
      subst hd
      exact ensure_client_shape lib params st ensD st1 tr1 he
    · rw [if_neg hke] at h
      split at h
      · exact absurd h (by simp)
      · simp only [Prod.mk.injEq, Except.ok.injEq] at h
        obtain ⟨hd, -, -⟩ := h
        subst hd
        exact unwrap_shape _

/-- handle_sign_cancel_all outcomes are well-shaped and id-free. -/
lemma handle_sign_cancel_all_shape (lib : SignerLib) (params : PyVal) (st : BridgeState)
    (d : Dict) (st2 : BridgeState) (tr : List ForeignCall)
    (h : handle_sign_cancel_all lib params st = (.ok d, st2, tr)) :
    wellShaped d ∧ List.lookup "id" d = none := by
  rcases he : ensure_client lib params st with ⟨ens, st1, tr1⟩
  unfold handle_sign_cancel_all at h
  rw [he] at h
  cases ens with
  | error e => simp at h
  | ok ensD =>
    dsimp only at h
    by_cases hke : dictHasKey ensD "error"
    · rw [if_pos hke] at h
      simp only [Prod.mk.injEq, Except.ok.injEq] at h
      obtain ⟨hd, -, -⟩ := h
      subst hd
      exact ensure_client_shape lib params st ensD st1 tr1 he
    · rw [if_neg hke] at h
      split at h
      · exact absurd h (by simp)
      · simp only [Prod.mk.injEq, Except.ok.injEq] at h
        obtain ⟨hd, -, -⟩ := h
        subst hd
        exact unwrap_shape _

/-- handle_create_auth_token outcomes are well-shaped and id-free. -/
lemma handle_create_auth_token_shape (lib : SignerLib) (params : PyVal) (st : BridgeState)
    (d : Dict) (st2 : BridgeState) (tr : List ForeignCall)
    (h : handle_create_auth_token lib params st = (.ok d, st2, tr)) :
    wellShaped d ∧ List.lookup "id" d = none := by
  rcases he : ensure_client lib params st with ⟨ens, st1, tr1⟩
  unfold handle_create_auth_token at h
  rw [he] at h
  cases ens with
  | error e => simp at h
  | ok ensD =>
    dsimp only at h
    by_cases hke : dictHasKey ensD "error"
    · rw [if_pos hke] at h
      simp only [Prod.mk.injEq, Except.ok.injEq] at h
      obtain ⟨hd, -, -⟩ := h
      subst hd
      exact ensure_client_shape lib params st ensD st1 tr1 he
    · rw [if_neg hke] at h
      split at h
      · exact absurd h (by simp)
      · simp only [Prod.mk.injEq, Except.ok.injEq] at h
        obtain ⟨hd, -, -⟩ := h
        subst hd
        exact unwrap_shape _

/-- Every handler reachable through the HANDLERS table produces
well-shaped, id-free outcomes. -/
lemma handler_found_shape (name : String) (hdl : Handler)
    (hfind : List.lookup name HANDLERS = some hdl)
    (lib : SignerLib) (params : PyVal) (st : BridgeState)
    (d : Dict) (st2 : BridgeState) (tr : List ForeignCall)
    (hrun : hdl lib params st = (.ok d, st2, tr)) :
    wellShaped d ∧ List.lookup "id" d = none := by
  unfold HANDLERS at hfind
  rw [List.lookup_cons] at hfind
  cases hb : (name == "create_client") with
  | true =>
    rw [hb] at hfind
    cases hfind
    exact handle_create_client_shape lib params st d st2 tr hrun
  | false =>
    rw [hb, List.lookup_cons] at hfind
    cases hb2 : (name == "sign_create_order") with
    | true =>
      rw [hb2] at hfind
      cases hfind
      exact handle_sign_create_order_shape lib params st d st2 tr hrun
    | false =>
      rw [hb2, List.lookup_cons] at hfind
      cases hb3 : (name == "sign_cancel_order") with
      | true =>
        rw [hb3] at hfind
        cases hfind
        exact handle_sign_cancel_order_shape lib params st d st2 tr hrun
      | false =>
        rw [hb3, List.lookup_cons] at hfind
        cases hb4 : (name == "sign_cancel_all") with
        | true =>
          rw [hb4] at hfind
          cases hfind
          exact handle_sign_cancel_all_shape lib params st d st2 tr hrun
        | false =>
          rw [hb4, List.lookup_cons] at hfind
          cases hb5 : (name == "create_auth_token") with
          | true =>
            rw [hb5] at hfind
            cases hfind
            exact handle_create_auth_token_shape lib params st d st2 tr hrun
          | false =>
            rw [hb5] at hfind
            exact absurd hfind (by simp)

/-- C6: for every parsed dict request, an unrecognized method name is
answered with unknown_method carrying the request id, a raising handler
is answered with an exception error carrying the request id, and every
non-crashing response carries the originating request's id (null when
absent) while the loop continues with the remaining lines. -/
theorem c6_dispatcher (lib : SignerLib) (jsonParse : String → Except String PyVal)
    (line : String) (rest : List String) (st : BridgeState)
    (entries : List (String × PyVal))
    (hne : pyStrip line ≠ "")
    (hparse : jsonParse (pyStrip line) = .ok (.pdict entries)) :
    (∀ name : String, (List.lookup "method" entries).getD .pnull = .pstr name →
      List.lookup name HANDLERS = none →
      handleRequest lib (.pdict entries) st =
        .ok ([("id", (List.lookup "id" entries).getD .pnull),
              ("error", .pstr ("unknown_method:" ++ name))], st, [])) ∧
    (∀ hdl : Handler,
      handlersGet ((List.lookup "method" entries).getD .pnull) = .ok (some hdl) →
      ∀ e st2 tr,
        hdl lib ((List.lookup "params" entries).getD (.pdict [])) st = (.error e, st2, tr) →
        handleRequest lib (.pdict entries) st =
          .ok ([("id", (List.lookup "id" entries).getD .pnull),
                ("error", .pstr ("exception:" ++ e))], st2, tr)) ∧
    (∀ resp st2 tr, handleRequest lib (.pdict entries) st = .ok (resp, st2, tr) →
      List.lookup "id" resp = some ((List.lookup "id" entries).getD .pnull) ∧
      runLoop lib jsonParse (line :: rest) st =
        (resp :: (runLoop lib jsonParse rest st2).1,
         (runLoop lib jsonParse rest st2).2)) := by
  refine ⟨?_, ?_, ?_⟩
  · intro name hmeth hnone
    simp only [handleRequest, pyGetD, hmeth, handlersGet, hnone, pyStrFmt]
  · intro hdl hfound e st2 tr hrun
    simp only [handleRequest, pyGetD, hfound, hrun]
  · intro resp st2 tr h
    have hloop : runLoop lib jsonParse (line :: rest) st =
        (resp :: (runLoop lib jsonParse rest st2).1,
         (runLoop lib jsonParse rest st2).2) := by
      simp only [runLoop, if_neg hne, hparse, h]
    refine ⟨?_, hloop⟩
    simp only [handleRequest, pyGetD] at h
    cases hg : handlersGet ((List.lookup "method" entries).getD .pnull) with
    | error eg => rw [hg] at h; exact absurd h (by simp)
    | ok copt =>
      rw [hg] at h
      cases copt with
      | none =>
        dsimp only at h
        simp only [Except.ok.injEq, Prod.mk.injEq] at h
        obtain ⟨hresp, -, -⟩ := h
        subst hresp
        rfl
      | some hdl =>
        dsimp only at h
        rcases hr : hdl lib ((List.lookup "params" entries).getD (.pdict [])) st
          with ⟨out, stx, trx⟩
        rw [hr] at h
        cases out with
        | error e =>
          dsimp only at h
          simp only [Except.ok.injEq, Prod.mk.injEq] at h
          obtain ⟨hresp, -, -⟩ := h
          subst hresp
          rfl
        | ok outcome =>
          dsimp only at h
          simp only [Except.ok.injEq, Prod.mk.injEq] at h
          obtain ⟨hresp, -, -⟩ := h
          subst hresp
          have hname : ∃ name, List.lookup name HANDLERS = some hdl := by
            cases hmv : (List.lookup "method" entries).getD .pnull with
            | pstr nm =>
              rw [hmv] at hg
              simp only [handlersGet, Except.ok.injEq] at hg
              exact ⟨nm, hg⟩
            | pnull => rw [hmv] at hg; simp [handlersGet] at hg
            | pbool b => rw [hmv] at hg; simp [handlersGet] at hg
            | pint n => rw [hmv] at hg; simp [handlersGet] at hg
            | plist xs => rw [hmv] at hg; simp [handlersGet] at hg
            | pdict es => rw [hmv] at hg; simp [handlersGet] at hg
          obtain ⟨nm, hfind⟩ := hname
          have hid : List.lookup "id" outcome = none :=
            (handler_found_shape nm hdl hfind lib _ st outcome stx trx hr).2
          rw [show dictSetdefault outcome "id" ((List.lookup "id" entries).getD .pnull) =
              outcome ++ [("id", (List.lookup "id" entries).getD .pnull)] from by
            simp [dictSetdefault, dictHasKey, hid]]
          exact lookup_append_of_none "id" _ outcome hid

/-- C6 witness: an unknown method named nope with id 3, followed by the
loop continuing (here: ending) normally. -/
theorem c6_witness :
    handleRequest okLib (.pdict [("id", .pint 3), ("method", .pstr "nope")]) initialState =
      .ok ([("id", .pint 3), ("error", .pstr "unknown_method:nope")], initialState, []) ∧
    List.lookup "id" [("id", PyVal.pint 3), ("error", PyVal.pstr "unknown_method:nope")] =
      some (.pint 3) ∧
    runLoop okLib (fun _ => .ok (.pdict [("id", .pint 3), ("method", .pstr "nope")]))
      ["x"] initialState =
      ([[("id", .pint 3), ("error", .pstr "unknown_method:nope")]], initialState, none) := by
  have h := c6_dispatcher okLib
    (fun _ => .ok (.pdict [("id", .pint 3), ("method", .pstr "nope")])) "x" []
    initialState [("id", .pint 3), ("method", .pstr "nope")] (by decide) rfl
  have h1 := h.1 "nope" rfl rfl
  have h3 := h.2.2 _ _ _ h1
  exact ⟨h1, h3.1, h3.2⟩

/-- C7: a non-blank line that fails JSON parsing produces exactly one
response, with id null and the invalid_json error, leaves the registry
state untouched, and the loop continues with the remaining lines. -/
theorem c7_invalid_json (lib : SignerLib) (jsonParse : String → Except String PyVal)
    (line : String) (rest : List String) (st : BridgeState) (e : String)
    (hne : pyStrip line ≠ "")
    (hparse : jsonParse (pyStrip line) = .error e) :
    runLoop lib jsonParse (line :: rest) st =
      ([("id", .pnull), ("error", .pstr ("invalid_json:" ++ e))] ::
        (runLoop lib jsonParse rest st).1,
       (runLoop lib jsonParse rest st).2) := by
  simp only [runLoop, if_neg hne, hparse]

/-- C7 witness: a single unparsable line. -/
theorem c7_witness :
    runLoop okLib (fun _ => .error "oops") ["x"] initialState =
      ([[("id", PyVal.pnull), ("error", PyVal.pstr "invalid_json:oops")]],
       initialState, none) :=
  c7_invalid_json okLib (fun _ => .error "oops") "x" [] initialState "oops" (by decide) rfl

/-- C10 (amended): blank or whitespace-only lines emit no response at
all and the loop proceeds to the next line.  Every other line falls in
exactly one of three cases: it fails to parse and emits exactly one
invalid_json response, or its request is handled without an uncaught
raise and emits exactly one response, or its processing raises outside
the dispatch try block (a JSON value that is not an object, or an
unhashable method value), which terminates the loop with no output for
that line. -/
theorem c10_blank_lines (lib : SignerLib) (jsonParse : String → Except String PyVal)
    (line : String) (rest : List String) (st : BridgeState) :
    (pyStrip line = "" →
      runLoop lib jsonParse (line :: rest) st = runLoop lib jsonParse rest st) ∧
    (pyStrip line ≠ "" →
      (∃ e, jsonParse (pyStrip line) = .error e ∧
        runLoop lib jsonParse (line :: rest) st =
          ([("id", .pnull), ("error", .pstr ("invalid_json:" ++ e))] ::
            (runLoop lib jsonParse rest st).1,
           (runLoop lib jsonParse rest st).2)) ∨
      (∃ req resp st2 tr, jsonParse (pyStrip line) = .ok req ∧
        handleRequest lib req st = .ok (resp, st2, tr) ∧
        runLoop lib jsonParse (line :: rest) st =
          (resp :: (runLoop lib jsonParse rest st2).1,
           (runLoop lib jsonParse rest st2).2)) ∨
      (∃ req msg, jsonParse (pyStrip line) = .ok req ∧
        handleRequest lib req st = .error msg ∧
        runLoop lib jsonParse (line :: rest) st = ([], st, some msg))) := by
  refine ⟨fun hb => ?_, fun hne => ?_⟩
  · simp only [runLoop, if_pos hb]
  · cases hp : jsonParse (pyStrip line) with
    | error e =>
      exact Or.inl ⟨e, rfl, by simp only [runLoop, if_neg hne, hp]⟩
    | ok req =>
      cases hh : handleRequest lib req st with
      | error msg =>
        exact Or.inr (Or.inr ⟨req, msg, rfl, hh, by simp only [runLoop, if_neg hne, hp, hh]⟩)
      | ok out =>
        obtain ⟨resp, st2, tr⟩ := out
        exact Or.inr (Or.inl ⟨req, resp, st2, tr, rfl, hh,
          by simp only [runLoop, if_neg hne, hp, hh]⟩)

/-- C10 witness: a whitespace-only line is skipped without output. -/
theorem c10_witness :
    runLoop okLib (fun _ => .error "x") [" \t "] initialState =
      runLoop okLib (fun _ => .error "x") [] initialState ∧
    runLoop okLib (fun _ => .error "x") [" \t "] initialState =
      ([], initialState, none) := by
  have h := (c10_blank_lines okLib (fun _ => .error "x") " \t " [] initialState).1 (by decide)
  exact ⟨h, h⟩

/-- C10 counterexample: the non-blank line 5 is valid JSON but not an
object; request.get raises outside the try block, so the loop terminates
having produced no output line for it. -/
theorem c10_counterexample :
    runLoop okLib (fun _ => .ok (.pint 5)) ["5"] initialState =
      ([], initialState, some "'int' object has no attribute 'get'") := rfl

/-- Lookup distributes over append. -/
lemma lookup_append_or (k : String) : ∀ d1 d2 : Dict,
    List.lookup k (d1 ++ d2) = (List.lookup k d1).or (List.lookup k d2) := by
  intro d1 d2
  induction d1 with
  | nil => simp [List.lookup]
  | cons a d ih =>
    obtain ⟨a1, a2⟩ := a
    rw [List.cons_append, List.lookup_cons, List.lookup_cons]
    cases hb : (k == a1) with
    | true => rfl
    | false => exact ih

/-- Appending the id binding leaves the other keys untouched. -/
lemma dictHasKey_append_id (d : Dict) (v : PyVal) (k : String)
    (hk : List.lookup k [("id", v)] = none) :
    dictHasKey (d ++ [("id", v)]) k = dictHasKey d k := by
  unfold dictHasKey
  rw [lookup_append_or, hk]
  cases List.lookup k d <;> rfl

/-- Attaching the correlation id preserves a well-shaped outcome. -/
lemma wellShaped_append_id (d : Dict) (v : PyVal) (h : wellShaped d) :
    wellShaped (d ++ [("id", v)]) := by
  unfold wellShaped at h ⊢
  rw [dictHasKey_append_id d v "error" rfl, dictHasKey_append_id d v "result" rfl,
    dictHasKey_append_id d v "txHash" rfl, dictHasKey_append_id d v "messageToSign" rfl]
  exact h

/-- C3 (amended): every response the dispatcher produces without
crashing either has error set and none of result/txHash/messageToSign,
or has result set without error — composite successes carry txHash and
messageToSign alongside result, so result and txHash can legitimately
be set together, but error never accompanies either. -/
theorem c3_response_shape (lib : SignerLib) (entries : List (String × PyVal))
    (st : BridgeState) (resp : Dict) (st2 : BridgeState) (tr : List ForeignCall)
    (h : handleRequest lib (.pdict entries) st = .ok (resp, st2, tr)) :
    wellShaped resp := by
  simp only [handleRequest, pyGetD] at h
  cases hg : handlersGet ((List.lookup "method" entries).getD .pnull) with
  | error eg => rw [hg] at h; exact absurd h (by simp)
  | ok copt =>
    rw [hg] at h
    cases copt with
    | none =>
      dsimp only at h
      simp only [Except.ok.injEq, Prod.mk.injEq] at h
      obtain ⟨hresp, -, -⟩ := h
      subst hresp
      exact Or.inl ⟨rfl, rfl, rfl, rfl⟩
    | some hdl =>
      dsimp only at h
      rcases hr : hdl lib ((List.lookup "params" entries).getD (.pdict [])) st
        with ⟨out, stx, trx⟩
      rw [hr] at h
      cases out with
      | error e =>
        dsimp only at h
        simp only [Except.ok.injEq, Prod.mk.injEq] at h
        obtain ⟨hresp, -, -⟩ := h
        subst hresp
        exact Or.inl ⟨rfl, rfl, rfl, rfl⟩
      | ok outcome =>
        dsimp only at h
        simp only [Except.ok.injEq, Prod.mk.injEq] at h
        obtain ⟨hresp, -, -⟩ := h
        subst hresp
        have hname : ∃ name, List.lookup name HANDLERS = some hdl := by
          cases hmv : (List.lookup "method" entries).getD .pnull with
          | pstr nm =>
            rw [hmv] at hg
            simp only [handlersGet, Except.ok.injEq] at hg
            exact ⟨nm, hg⟩
          | pnull => rw [hmv] at hg; simp [handlersGet] at hg
          | pbool b => rw [hmv] at hg; simp [handlersGet] at hg
          | pint n => rw [hmv] at hg; simp [handlersGet] at hg
          | plist xs => rw [hmv] at hg; simp [handlersGet] at hg
          | pdict es => rw [hmv] at hg; simp [handlersGet] at hg
        obtain ⟨nm, hfind⟩ := hname
        have hsh := handler_found_shape nm hdl hfind lib _ st outcome stx trx hr
        rw [show dictSetdefault outcome "id" ((List.lookup "id" entries).getD .pnull) =
            outcome ++ [("id", (List.lookup "id" entries).getD .pnull)] from by
          simp [dictSetdefault, dictHasKey, hsh.2]]
        exact wellShaped_append_id outcome _ hsh.1

/-- C3 witness: a concrete dispatched response is well-shaped. -/
theorem c3_witness :
    wellShaped [("id", PyVal.pnull), ("error", PyVal.pstr "unknown_method:None")] :=
  c3_response_shape okLib [] initialState
    [("id", PyVal.pnull), ("error", PyVal.pstr "unknown_method:None")] initialState [] rfl

/-- C3 counterexample: a successfully dispatched sign_cancel_order whose
foreign result carries both a payload and a hash produces a response
with result AND txHash set simultaneously, refuting "exactly one of
result or txHash". -/
theorem c3_counterexample :
    handleRequest okLib
      (.pdict [("id", .pint 2), ("method", .pstr "sign_cancel_order"),
        ("params", .pdict [("apiKeyIndex", .pint 0), ("baseUrl", .pstr "u"),
          ("privateKey", .pstr "p"), ("chainId", .pint 1), ("accountIndex", .pint 5),
          ("marketIndex", .pint 1), ("orderIndex", .pint 2), ("nonce", .pint 3)])])
      initialState =
      .ok ([("result", .pstr "i"), ("txHash", .pstr "h"), ("messageToSign", .pnull),
            ("id", .pint 2)],
           ⟨[(0, ⟨.pstr "u", .pstr "p", 1, 5⟩)], [0]⟩,
           [.createClientCall "u" "p" 1 0 5, .signCancelOrderCall 1 2 3 0 5]) ∧
    List.lookup "result" [("result", PyVal.pstr "i"), ("txHash", PyVal.pstr "h"),
      ("messageToSign", PyVal.pnull), ("id", PyVal.pint 2)] = some (.pstr "i") ∧
    List.lookup "txHash" [("result", PyVal.pstr "i"), ("txHash", PyVal.pstr "h"),
      ("messageToSign", PyVal.pnull), ("id", PyVal.pint 2)] = some (.pstr "h") :=
  ⟨rfl, rfl, rfl⟩

end LighterBridge
